import Mathlib

/-!
# ARRCON — verification of the RCON session layer, frame channel and driver

Shallow embedding of the ARRCON sources:

* `src/RCON/rcon.hpp` — `rcon::authenticate` and `rcon::command` (sentinel-based
  multi-packet response reassembly);
* `src/ARRCON/net/net.hpp` — `net::recv_packet`, `net::flush`, `net::close_socket`,
  `net::cleanup`;
* `src/ARRCON/utils.hpp` — `get_commands`, `read_script_file`;
* `src/ARRCON/main.cpp` — the driver sequence after the TCP connection is made.

The mock server is modelled as the ordered list of frames it commits to the TCP
stream: `recv` consumes the head, a `select` readiness probe reports 1 exactly
when a frame is pending, and TCP FIFO ordering is implicit in the list order.
Where a definition had to be taken from the specification because the deciding
file is not in the source tree (`packet.hpp`, `mode.hpp`, the external 307lib
string helpers), its doc comment says so explicitly.
-/

/-- One RCON frame as carried by `packet::Packet` (id, type, body).  The derived
wire `size` field plays no role in the session-layer claims. -/
structure Packet where
  id : Int
  type : Int
  body : String
deriving DecidableEq, Repr

/-- Modelled from the spec: `packet.hpp` is not under `src/`; per the wire
scenarios S1/S2 the stream-insertion operator of a `Packet` renders its body,
which is what `std::cout << p` in `rcon::command` writes. -/
def printPacket (p : Packet) : String := p.body

/-- Result of `rcon::command` (`src/RCON/rcon.hpp:43-79`): the bodies written to
standard output in order, whether the terminator (sentinel) packet was sent
(`wait_for_term`), and the returned boolean. -/
structure CmdResult where
  output : List String
  sentTerm : Bool
  ok : Bool
deriving DecidableEq, Repr

/-- The receive loop of `rcon::command` (`src/RCON/rcon.hpp:65-75`).

State at each `select` check: `pending` is the list of frames already committed
by the server, `p` the current packet (received before the loop or by the
previous iteration's update expression), `first` says whether `i == 0`, `wft`
is `wait_for_term` and `out` the bodies printed so far.  The loop condition
`select(...) == 1` is `pending ≠ []`; the body on `i == 0` sends the sentinel
(always delivered in this model) after which the server's echo `echo` joins the
stream behind the frames already committed (TCP FIFO); the body then either
breaks on `wait_for_term && p.id == terminator_pid` or prints `p.body`; the
update expression receives the next frame.  `fuel` bounds the iteration count;
`command` supplies one more than the total number of frames that can ever be
pending, which the loop can never exceed, so the fuel cutoff is unreachable. -/
def cmdLoop (term_pid : Int) (echo : List Packet) :
    Nat → List Packet → Packet → Bool → Bool → List String →
    List String × Int × Bool
  | 0, _, p, _, wft, out => (out, p.id, wft)
  | _ + 1, [], p, _, wft, out => (out, p.id, wft)
  | fuel + 1, q :: rest, p, first, wft, out =>
    if (first || wft) && (p.id == term_pid) then
      (out, p.id, first || wft)
    else
      cmdLoop term_pid echo fuel (if first then rest ++ echo else rest) q false
        (first || wft) (out ++ [p.body])

/-- `rcon::command` (`src/RCON/rcon.hpp:43-79`) against a mock server.

`frames` are the response frames the server commits after receiving the
`SERVERDATA_EXECCOMMAND` request; `echo` is what it commits after receiving the
sentinel (the echo of `terminator_pid`).  The function sends the command
(always delivered), receives a first packet — blocking forever (`none`) when
the server has nothing to send, since the sentinel that would provoke a reply
is only sent inside the loop — prints it via `std::cout << p`, runs the loop,
and returns `p.id == terminator_pid || !wait_for_term`. -/
def command (frames echo : List Packet) (cmd_pid term_pid : Int) :
    Option CmdResult :=
  match frames with
  | [] => none
  | p :: rest =>
    let r := cmdLoop term_pid echo (rest.length + echo.length + 1) rest p true
      false [printPacket p]
    some ⟨r.1, r.2.2, (r.2.1 == term_pid) || !r.2.2⟩

/-- `rcon::authenticate` (`src/RCON/rcon.hpp:25-36`): send the
`SERVERDATA_AUTH` packet carrying the password (delivery assumed successful in
the mock model), receive exactly one frame, and succeed iff its id equals the
allocated request id `pid`.  `none` models the blocking/lost connection when
the server sends nothing.  No frame type is inspected and no frame beyond the
first is consumed. -/
def authenticate (stream : List Packet) (pid : Int) :
    Option (Bool × List Packet) :=
  match stream with
  | [] => none
  | r :: rest => some (r.id == pid, rest)

/-- Observable driver actions of `src/ARRCON/main.cpp` after argument
handling. -/
inductive Ev where
  | connect
  | authSend (pid : Int) (password : String)
  | execCmd (c : String)
  | interactive
deriving DecidableEq, Repr

/-- The driver sequence of `src/ARRCON/main.cpp:145-170`: connect, check the
blank-password guard (line 156: `!Global.allowBlankPassword &&
Global.target.password.empty()` throws before `rcon::authenticate` is called),
authenticate, then dispatch commands.  `mode::commandline` /
`mode::interactive` are modelled from the spec (`mode.hpp` is not under
`src/`): batch mode executes each queued command in order, and interactive mode
starts when no command was queued or the force-interactive flag is set.  A
thrown exception is caught at the bottom of `main` and becomes exit code 1. -/
def driverMain (allowBlank : Bool) (password : String) (pid : Int)
    (stream : List Packet) (commands : List String) (forceInteractive : Bool) :
    Option (Nat × List Ev) :=
  if !allowBlank && (password == "") then
    some (1, [Ev.connect])
  else
    match authenticate stream pid with
    | none => none
    | some (ok, _) =>
      if ok then
        some (0, [Ev.connect, Ev.authSend pid password]
          ++ commands.map Ev.execCmd
          ++ (if commands.isEmpty || forceInteractive then [Ev.interactive] else []))
      else
        some (1, [Ev.connect, Ev.authSend pid password])

/-- Sanity theorem for the S1 happy path: one response frame (id 2, body
`"ok"`) with the echo pending; the loop is never entered because nothing is
readable after the first frame, and the output is `"ok"`. -/
theorem s1_happy_path :
    command [⟨2, 0, "ok"⟩] [⟨3, 0, ""⟩] 2 3 = some ⟨["ok"], false, true⟩ := by
  decide

/-- C1: scenario S2 evaluated on the code.  The server commits the three
fragments `"AAA"`, `"BBB"`, `"CCC"` (command id 2) and echoes the sentinel
(id 3).  `rcon::command` prints the first fragment once before the loop
(`std::cout << p`, rcon.hpp:58) and again in the loop's first iteration (the
loop body runs on `p` before the update expression receives the next frame,
rcon.hpp:65-72), so standard out carries `"AAAAAABBBCCC"`, not the
concatenation `"AAABBBCCC"` the claim states; and for `k = 0` the first
receive blocks forever because the sentinel that would provoke the echo is
only sent inside the loop. -/
theorem c1_fragment_eval :
    command [⟨2, 0, "AAA"⟩, ⟨2, 0, "BBB"⟩, ⟨2, 0, "CCC"⟩] [⟨3, 0, ""⟩] 2 3
      = some ⟨["AAA", "AAA", "BBB", "CCC"], true, true⟩
    ∧ String.join ["AAA", "AAA", "BBB", "CCC"] = "AAAAAABBBCCC"
    ∧ command [] [⟨3, 0, ""⟩] 2 3 = none := by
  decide

/-- C10: when exactly one frame is readable after the command is sent and
nothing further becomes readable within the select timeout, the loop body of
`rcon::command` never runs, the sentinel is never sent (`wait_for_term` stays
false), exactly that one frame's body is emitted, and the function still
returns true — so success is no evidence of a sentinel exchange. -/
theorem c10_success_without_sentinel (p : Packet) (echo : List Packet)
    (cmd_pid term_pid : Int) :
    command [p] echo cmd_pid term_pid = some ⟨[printPacket p], false, true⟩ := by
  simp [command, cmdLoop, printPacket]

/-- C4 counterexample: a successful run of `rcon::command` that emits the body
of a frame whose id (99) is neither the command id (2) nor the sentinel id
(3).  The server commits `⟨2,0,"ok"⟩` then the stray `⟨99,0,"rogue"⟩`, and
echoes the sentinel `⟨3,0,""⟩`.  The run succeeds (`ok = true`) and `"rogue"`
is printed — the stray frame is not discarded, refuting the claim that every
emitted frame has the command id. -/
theorem c4_foreign_id_emitted :
    command [⟨2, 0, "ok"⟩, ⟨99, 0, "rogue"⟩] [⟨3, 0, ""⟩] 2 3
      = some ⟨["ok", "ok", "rogue"], true, true⟩
    ∧ ¬((99 : Int) = 2 ∨ (99 : Int) = 3) := by
  decide

/-- C4 amended: in a successful run `rcon::command` performs no id filtering on
emission — for any two response frames `f, g` followed by the sentinel echo
`t`, both bodies are emitted (the first one twice, by the pre-loop print)
regardless of whether their ids match the command id; only a frame carrying
the sentinel id after the sentinel was sent ends the loop without being
emitted. -/
theorem c4_no_id_filter (f g t : Packet) (cmd_pid term_pid : Int)
    (hf : f.id ≠ term_pid) (hg : g.id ≠ term_pid) (ht : t.id = term_pid) :
    command [f, g] [t] cmd_pid term_pid
      = some ⟨[f.body, f.body, g.body], true, true⟩ := by
  simp [command, cmdLoop, printPacket, hf, hg, ht]

/-- Witness for `c4_no_id_filter` at concrete frames. -/
theorem c4_no_id_filter_witness :
    command [⟨5, 0, "x"⟩, ⟨7, 0, "y"⟩] [⟨3, 0, ""⟩] 5 3
      = some ⟨["x", "x", "y"], true, true⟩ :=
  c4_no_id_filter ⟨5, 0, "x"⟩ ⟨7, 0, "y"⟩ ⟨3, 0, ""⟩ 5 3
    (by decide) (by decide) (by decide)

/-- C2: the Minecraft-quirk input evaluated on the code.  After the Auth
request (pid 1) the server sends the spurious empty `SERVERDATA_RESPONSE_VALUE`
(type 0) and then the real `SERVERDATA_AUTH_RESPONSE` (type 2).
`rcon::authenticate` receives exactly one frame, never inspects its type or
body, and returns on the spurious frame: authentication reports success but
the real auth reply is left unconsumed in the stream, contradicting the
required accept-discard-and-receive-again behaviour (spec §4.5.1 step 3; §9
calls the source's omission a known bug). -/
theorem c2_no_quirk_discard :
    authenticate [⟨1, 0, ""⟩, ⟨1, 2, ""⟩] 1 = some (true, [⟨1, 2, ""⟩])
    ∧ [(⟨1, 2, ""⟩ : Packet)] ≠ [] := by
  decide

/-- C3: authentication succeeds iff the received frame's id equals the
allocated request id, and on a mismatched id (conventionally −1) the driver
exits with code 1 right after the auth exchange, executing no command and
opening no interactive session. -/
theorem c3_auth_iff_id (allowBlank : Bool) (password : String) (pid : Int)
    (r : Packet) (rest : List Packet) (commands : List String)
    (forceInteractive : Bool) (hpw : password ≠ "") :
    (authenticate (r :: rest) pid = some (true, rest) ↔ r.id = pid)
    ∧ (r.id ≠ pid →
        driverMain allowBlank password pid (r :: rest) commands forceInteractive
          = some (1, [Ev.connect, Ev.authSend pid password])) := by
  constructor
  · simp [authenticate]
  · intro hid
    simp [driverMain, authenticate, hid, beq_eq_false_iff_ne.mpr hpw]

/-- Witness for `c3_auth_iff_id`: server replies with id −1 to the Auth
request with id 1. -/
theorem c3_auth_iff_id_witness :
    (authenticate [(⟨-1, 2, ""⟩ : Packet)] 1 = some (true, []) ↔
      (⟨-1, 2, ""⟩ : Packet).id = 1)
    ∧ ((⟨-1, 2, ""⟩ : Packet).id ≠ 1 →
        driverMain true "secret" 1 [⟨-1, 2, ""⟩] ["status"] false
          = some (1, [Ev.connect, Ev.authSend 1 "secret"])) :=
  c3_auth_iff_id true "secret" 1 ⟨-1, 2, ""⟩ [] ["status"] false (by decide)

/-- Modelled from the spec §3: `packet.hpp` is not under `src/`;
`PSIZE_MIN = 10` (id + type + two NULs). -/
def PSIZE_MIN : Int := 10

/-- Modelled from the spec §3: `packet.hpp` is not under `src/`;
`PSIZE_MAX = 4096`. -/
def PSIZE_MAX : Int := 4096

/-- Outcome of the initial 4-byte size-field read in `net::recv_packet`
(`src/ARRCON/net/net.hpp:258-259`): the declared size value, a zero-byte read
(peer closed), a `SOCKET_ERROR` return, or a short read of 1-3 bytes. -/
inductive HeaderRead where
  | got (psize : Int)
  | closed
  | sockErr
  | shortRead
deriving DecidableEq, Repr

/-- Observable outcome of `net::recv_packet` (`src/ARRCON/net/net.hpp:256-290`).
`ok` records the two warning messages that may go to standard error and the
number of inbound bytes left unread; the three error constructors are the
throws of the `validate` lambda; `looping` means the payload loop ran out of
fuel without completing — used below only on inputs where it provably runs
forever. -/
inductive RecvOutcome where
  | ok (warnSmall warnLarge : Bool) (availLeft : Nat)
  | connLost
  | connClosed
  | corruptRead
  | looping
deriving DecidableEq, Repr

/-- The payload read loop of `net::recv_packet`
(`src/ARRCON/net/net.hpp:284-287`):

`for (int received{0}, ret{0}; received < psize; received += ret) {
   ret = recv(...); validate(); }`

`avail` is the number of inbound bytes the peer has committed before closing;
`recv` returns `min (psize - received) avail` of them, or 0 once they are
exhausted.  The loop-local `ret` shadows the outer `ret` captured by reference
in the `validate` lambda, so `validate` keeps seeing the successful header
read: a zero-byte read in this loop is never diagnosed and the loop state no
longer changes.  `validate` does re-run its size check each iteration, so an
oversize `psize` re-flushes (drains) the socket after every read.  `none`
means the fuel ran out with the loop still running. -/
def payloadLoop (psize : Int) : Nat → Int → Nat → Option Nat
  | 0, _, _ => none
  | fuel + 1, received, avail =>
    if received < psize then
      payloadLoop psize fuel (received + ↑(min (psize - received).toNat avail))
        (if PSIZE_MAX < psize then 0 else avail - min (psize - received).toNat avail)
    else
      some avail

/-- `net::recv_packet` (`src/ARRCON/net/net.hpp:256-290`).  The `validate`
lambda maps the header read to: success (4 bytes), `Connection Lost!` on a
zero-byte read, `Connection closed by server.` on `SOCKET_ERROR`, and
`Received a corrupted packet!` on any other length; a declared size below
`PSIZE_MIN` or above `PSIZE_MAX` only prints a warning, and the oversize case
calls `net::flush` — draining all `avail` pending bytes — before the payload
loop reads the declared bytes.  The decoded packet itself is abstracted to the
`ok` outcome. -/
def recv_packet (hdr : HeaderRead) (avail : Nat) (fuel : Nat) : RecvOutcome :=
  match hdr with
  | .closed => .connLost
  | .sockErr => .connClosed
  | .shortRead => .corruptRead
  | .got psize =>
    match payloadLoop psize fuel 0 (if PSIZE_MAX < psize then 0 else avail) with
    | none => .looping
    | some left => .ok (decide (psize < PSIZE_MIN)) (decide (PSIZE_MAX < psize)) left

/-- When no inbound byte is left and the declared size has not been reached,
the payload loop of `net::recv_packet` makes no progress: `recv` returns 0,
the shadowed-`ret` `validate` does not notice, and the loop runs forever. -/
theorem payloadLoop_stuck (psize : Int) (fuel : Nat) (received : Int)
    (h : received < psize) : payloadLoop psize fuel received 0 = none := by
  induction fuel generalizing received with
  | zero => rfl
  | succ n ih =>
    simp only [payloadLoop, if_pos h, Nat.min_zero, Nat.zero_sub]
    simpa using ih received h

/-- C6: the zero-byte-read behaviour of `net::recv_packet`.  A zero-byte read
while reading the 4-byte size field is surfaced as `Connection Lost!`; but a
zero-byte read while reading the payload — here the peer declares size 10 and
closes before sending any payload byte — is never diagnosed, because the
`validate` lambda captures the outer `ret` (still 4 from the header read)
while the loop assigns a shadowing inner `ret`: for every fuel bound the loop
is still running, so the error is never surfaced and no frame is returned.
(The sibling implementation `src/ARRCON/net.hpp:218-221` checks `ret == 0`
inside the loop and throws, showing the intended behaviour.) -/
theorem c6_zero_read_loops :
    (∀ avail fuel, recv_packet .closed avail fuel = .connLost)
    ∧ (∀ fuel, recv_packet (.got 10) 0 fuel = .looping) := by
  constructor
  · intro avail fuel; rfl
  · intro fuel
    have h : payloadLoop 10 fuel 0 0 = none := payloadLoop_stuck 10 fuel 0 (by decide)
    simp [recv_packet, PSIZE_MAX, h]

/-- C5 counterexample: the peer declares size 4 — below `PSIZE_MIN = 10` — and
supplies 4 payload bytes.  `net::recv_packet` only prints the
`Received unexpectedly small packet size` warning and then reads and returns
the frame normally: the outcome is `ok` (with the small-size warning flag),
not a `CorruptFrame` error as the claim states. -/
theorem c5_undersize_returns_frame :
    recv_packet (.got 4) 4 2 = .ok true false 0
    ∧ (4 : Int) < PSIZE_MIN := by
  decide

/-- With enough inbound bytes committed and a positive declared size within
`PSIZE_MAX`, the payload loop of `net::recv_packet` completes in a single
read. -/
theorem payloadLoop_small_complete (psize : Int) (avail : Nat)
    (hpos : 0 < psize) (hmaxn : ¬ PSIZE_MAX < psize) (hav : psize.toNat ≤ avail) :
    payloadLoop psize 2 0 avail = some (avail - psize.toNat) := by
  have hmin : min (psize - 0).toNat avail = psize.toNat := by
    rw [Int.sub_zero]; exact Nat.min_eq_left hav
  have hstep : ¬ ((0 : Int) + ↑(psize.toNat) < psize) := by omega
  simp only [payloadLoop, hmin, if_pos hpos, if_neg hmaxn, if_neg hstep]

/-- C5 amended: after reading the size field, `net::recv_packet` treats sizes
outside `[PSIZE_MIN, PSIZE_MAX]` as follows.  A size below `PSIZE_MIN` is only
warned about: the declared bytes are read and the frame is returned normally
(no `CorruptFrame` result exists in the code).  A size above `PSIZE_MAX` is
warned about and the socket is flushed *first* (net.hpp:275-278), so the
subsequent payload loop reads from a drained socket and — zero-byte reads
being undetected — runs forever; no `OversizePacket` result is ever
returned. -/
theorem c5_size_validation (psize : Int) (avail : Nat)
    (hpos : 0 < psize) (hsmall : psize < PSIZE_MIN) (hav : psize.toNat ≤ avail) :
    recv_packet (.got psize) avail 2 = .ok true false (avail - psize.toNat)
    ∧ (∀ (psize2 : Int) (avail2 fuel : Nat), PSIZE_MAX < psize2 →
        recv_packet (.got psize2) avail2 fuel = .looping) := by
  have hmaxn : ¬ (PSIZE_MAX < psize) := by
    simp only [PSIZE_MIN] at hsmall
    simp only [PSIZE_MAX]; omega
  constructor
  · have h := payloadLoop_small_complete psize avail hpos hmaxn hav
    simp [recv_packet, if_neg hmaxn, h, decide_eq_true hsmall,
      decide_eq_false hmaxn]
  · intro psize2 avail2 fuel hbig
    have hpos2 : (0 : Int) < psize2 := by
      simp only [PSIZE_MAX] at hbig; omega
    have h : payloadLoop psize2 fuel 0 0 = none :=
      payloadLoop_stuck psize2 fuel 0 hpos2
    simp [recv_packet, if_pos hbig, h]

/-- Witness for `c5_size_validation`: declared size 4 with 9 inbound bytes,
and an oversize size of 8192. -/
theorem c5_size_validation_witness :
    recv_packet (.got 4) 9 2 = .ok true false 5
    ∧ (∀ (psize2 : Int) (avail2 fuel : Nat), PSIZE_MAX < psize2 →
        recv_packet (.got psize2) avail2 fuel = .looping) :=
  c5_size_validation 4 9 (by decide) (by decide) (by decide)

/-- `SOCKET_ERROR`, the invalid socket descriptor value. -/
def SOCKET_ERROR : Int := -1

/-- The process state touched by `net::close_socket` / `net::cleanup`
(`src/ARRCON/net/net.hpp:134-147`): the `Global.socket` slot and the number of
times the socket-close and the network-library teardown (`WSACleanup`) have
run. -/
structure NetState where
  socket : Int
  closeCount : Nat
  teardownCount : Nat
deriving DecidableEq, Repr

/-- `net::close_socket` (`src/ARRCON/net/net.hpp:134-140`), Windows path: every
call runs `closesocket` and then `WSACleanup`; the `Global.socket` slot is not
touched.  (On the POSIX path of this file the function body is empty.) -/
def close_socket (s : NetState) : NetState :=
  { s with closeCount := s.closeCount + 1, teardownCount := s.teardownCount + 1 }

/-- `net::cleanup` (`src/ARRCON/net/net.hpp:143-147`): close the socket via
`close_socket` whenever `Global.socket` differs from `SOCKET_ERROR`.  Nothing
ever resets `Global.socket` after a close. -/
def cleanup (s : NetState) : NetState :=
  if s.socket ≠ SOCKET_ERROR then close_socket s else s

/-- C8 counterexample: starting from a connected state (socket descriptor 5,
no close yet), running `cleanup` twice performs the network-library teardown
twice — the guard only compares against `SOCKET_ERROR` and the slot is never
invalidated — refuting "the platform network-library teardown runs at most
once per process". -/
theorem c8_double_teardown :
    (cleanup (cleanup ⟨5, 0, 0⟩)).teardownCount = 2
    ∧ ¬ (cleanup (cleanup ⟨5, 0, 0⟩)).teardownCount ≤ 1 := by
  decide

/-- C8 amended: closing twice completes without fault in the model, but each
call runs `closesocket` and the teardown once more: from any state whose
socket slot is not `SOCKET_ERROR`, two `cleanup` calls add exactly two closes
and two teardowns and leave the slot unchanged. -/
theorem c8_close_not_idempotent (s : NetState) (h : s.socket ≠ SOCKET_ERROR) :
    cleanup (cleanup s)
      = { s with closeCount := s.closeCount + 2,
                 teardownCount := s.teardownCount + 2 } := by
  simp [cleanup, close_socket, h]

/-- Witness for `c8_close_not_idempotent` at a concrete connected state. -/
theorem c8_close_not_idempotent_witness :
    cleanup (cleanup ⟨7, 1, 1⟩) = ⟨7, 3, 3⟩ :=
  c8_close_not_idempotent ⟨7, 1, 1⟩ (by decide)

/-- A command-line comment delimiter (`"#;"`), as passed to `str::strip_line`
by `read_script_file` (`src/ARRCON/utils.hpp:128`). -/
def isCommentChar (c : Char) : Bool := c == '#' || c == ';'

/-- Whitespace as trimmed by `str::strip_line`. -/
def isWSChar (c : Char) : Bool :=
  c == ' ' || c == '\t' || c == '\r' || c == '\n' || c == '\x0b' || c == '\x0c'

/-- Modelled from the spec: `str::strip_line` comes from the external 307lib
headers, which are not under `src/`.  Per §4.6 it removes the portion of the
line starting at the first `#` or `;` (the delimiters `read_script_file`
passes explicitly and — per the spec, which mandates the same filter for piped
standard input — the call without an explicit delimiter argument in
`get_commands` uses as well) and trims leading and trailing whitespace. -/
def strip_line (line : List Char) : List Char :=
  ((((line.takeWhile (fun c => !(isCommentChar c))).dropWhile
    isWSChar).reverse.dropWhile isWSChar).reverse)

/-- `read_script_file` (`src/ARRCON/utils.hpp:116-135`): keep each line's
stripped form when it is non-empty, in file order.  (PATH resolution and the
unreadable-file warning are outside the model; an unreadable file contributes
the empty list.) -/
def read_script_file (lines : List (List Char)) : List (List Char) :=
  lines.foldl
    (fun acc ln => if strip_line ln = [] then acc else acc ++ [strip_line ln])
    []

/-- `get_commands` (`src/ARRCON/utils.hpp:142-170`): start from the positional
arguments, append the filtered lines of piped standard input when
`hasPendingDataSTDIN()` reports pending data, then append each script file's
filtered lines in the order the files were given on the command line. -/
def get_commands (positionals : List (List Char)) (stdinPending : Bool)
    (stdinLines : List (List Char)) (scriptFiles : List (List (List Char))) :
    List (List Char) :=
  let cmds := positionals
  let cmds :=
    if stdinPending then
      stdinLines.foldl
        (fun acc ln => if strip_line ln = [] then acc else acc ++ [strip_line ln])
        cmds
    else cmds
  scriptFiles.foldl (fun acc f => acc ++ read_script_file f) cmds

/-- The line filter as a `filterMap`: the stripped form of every line whose
stripped form is non-empty, in order. -/
def filterCommands (lines : List (List Char)) : List (List Char) :=
  lines.filterMap
    (fun ln => if strip_line ln = [] then none else some (strip_line ln))

/-- The accumulator form of the line filter used by `read_script_file` and the
standard-input branch of `get_commands`. -/
theorem foldl_strip_eq_append (lines : List (List Char)) (acc : List (List Char)) :
    lines.foldl
      (fun acc ln => if strip_line ln = [] then acc else acc ++ [strip_line ln]) acc
      = acc ++ filterCommands lines := by
  induction lines generalizing acc with
  | nil => simp [filterCommands]
  | cons l t ih =>
    simp only [List.foldl_cons, filterCommands, List.filterMap_cons]
    by_cases h : strip_line l = []
    · rw [if_pos h, if_pos h, ih]
      rfl
    · rw [if_neg h, if_neg h, ih]
      simp [filterCommands]

/-- `read_script_file` computes exactly the filtered line list. -/
theorem read_script_file_eq (lines : List (List Char)) :
    read_script_file lines = filterCommands lines := by
  simp only [read_script_file]
  rw [foldl_strip_eq_append]
  rfl

/-- The script-file appending loop of `get_commands` flattens the per-file
results in order. -/
theorem foldl_scripts_eq_append (files : List (List (List Char)))
    (acc : List (List Char)) :
    files.foldl (fun acc f => acc ++ read_script_file f) acc
      = acc ++ (files.map read_script_file).flatten := by
  induction files generalizing acc with
  | nil => simp
  | cons f t ih => simp [ih]

/-- A line whose first character is `#` or `;` strips to the empty line. -/
theorem strip_line_comment (l : List Char)
    (h : l.head? = some '#' ∨ l.head? = some ';') : strip_line l = [] := by
  match l, h with
  | c :: t, h =>
    have hc : c = '#' ∨ c = ';' := by
      rcases h with h | h <;> simp_all
    rcases hc with rfl | rfl <;> simp [strip_line, isCommentChar, List.takeWhile]

/-- C7: the driver's command list is the positional arguments in order,
followed — when standard input has pending piped data — by standard input's
filtered lines, followed by each script file's filtered lines in command-line
order; without pending piped data the standard-input lines are ignored; and a
piped standard-input line beginning with `#` or `;` contributes no command at
all. -/
theorem c7_command_list (positionals stdinLines : List (List Char))
    (scriptFiles : List (List (List Char))) (l : List Char)
    (h : l.head? = some '#' ∨ l.head? = some ';') :
    get_commands positionals true stdinLines scriptFiles
      = positionals ++ filterCommands stdinLines
        ++ (scriptFiles.map read_script_file).flatten
    ∧ get_commands positionals false stdinLines scriptFiles
      = positionals ++ (scriptFiles.map read_script_file).flatten
    ∧ get_commands positionals true (l :: stdinLines) scriptFiles
      = get_commands positionals true stdinLines scriptFiles := by
  refine ⟨?_, ?_, ?_⟩
  · simp only [get_commands, if_true]
    rw [foldl_strip_eq_append, foldl_scripts_eq_append, List.append_assoc]
  · simp only [get_commands]
    rw [foldl_scripts_eq_append]
    simp
  · have hs : strip_line l = [] := strip_line_comment l h
    simp only [get_commands, if_true, List.foldl_cons, if_pos hs]

/-- Witness for `c7_command_list`: one positional command, one piped line, one
script file, and the comment line `"#x"`. -/
theorem c7_command_list_witness :
    get_commands [['a']] true [['b']] [[['c']]]
      = [['a']] ++ filterCommands [['b']]
        ++ ([[['c']]].map read_script_file).flatten
    ∧ get_commands [['a']] false [['b']] [[['c']]]
      = [['a']] ++ ([[['c']]].map read_script_file).flatten
    ∧ get_commands [['a']] true (['#', 'x'] :: [['b']]) [[['c']]]
      = get_commands [['a']] true [['b']] [[['c']]] :=
  c7_command_list [['a']] [['b']] [[['c']]] ['#', 'x'] (Or.inl rfl)

/-- C9: with `allowBlankPassword` false and an empty resolved password, the
driver throws right after connecting (`main.cpp:156-157`) and exits with code
1 having performed only the connect: no `SERVERDATA_AUTH` packet is ever sent,
whatever the server would have answered and whatever commands were queued. -/
theorem c9_blank_password_guard (pid : Int) (stream : List Packet)
    (commands : List String) (forceInteractive : Bool) :
    driverMain false "" pid stream commands forceInteractive
      = some (1, [Ev.connect])
    ∧ ∀ password, Ev.authSend pid password ∉ [Ev.connect] := by
  refine ⟨rfl, ?_⟩
  intro password
  simp
